import Mathlib

/-!
# Verification of the products CRUD service

Shallow embedding of the Express "products" service:
* `src/api/products/index.js` — the five route handlers (`productsRouter`);
* `src/server.js` — the middleware order (routes, then `badRequestHandler`,
  `notFoundHandler`, `genericErrorHandler`);
* the Mongoose calls the handlers make (`save`, `find`, `findById`,
  `findByIdAndUpdate`) are embedded with their documented semantics over an
  explicit association-list store;
* `model.js` (the ProductsModel schema) and `errorHandlers.js` are imported by
  the sources but absent from them; their definitions below are modelled from
  the spec and marked as such.
-/

set_option autoImplicit false

namespace ProductsService

/-- A request body for the products resource: any subset of the three schema
fields may be supplied (`req.body` after `Express.json()`). -/
structure Payload where
  name : Option String
  description : Option String
  price : Option Int
deriving Repr, DecidableEq

/-- A persisted product record (timestamps are store-managed and play no role
in any claim, so they are omitted from the record). -/
structure Product where
  name : String
  description : String
  price : Int
deriving Repr, DecidableEq

/-- The document store: rows addressed by their generated identifier, plus the
generator counter used to mint fresh identifiers. -/
structure DB where
  rows : List (String × Product)
  counter : Nat
deriving Repr, DecidableEq

/-- Find the record stored under `id`, if any. -/
def lookupRow : List (String × Product) → String → Option Product
  | [], _ => none
  | (k, v) :: rest, id => if k = id then some v else lookupRow rest id

/-- Replace the record stored under `id` (first occurrence) with `p`. -/
def setRow : List (String × Product) → String → Product → List (String × Product)
  | [], _, _ => []
  | (k, v) :: rest, id, p =>
    if k = id then (k, p) :: rest else (k, v) :: setRow rest id p

/-- Lower-case hexadecimal digit for `n < 16`. -/
def hexChar (n : Nat) : Char :=
  if n < 10 then Char.ofNat (48 + n) else Char.ofNat (97 + (n - 10))

/-- Is `c` a hexadecimal digit? -/
def isHexChar (c : Char) : Bool :=
  c.isDigit || ('a' ≤ c && c ≤ 'f') || ('A' ≤ c && c ≤ 'F')

/-- `k` hexadecimal digits of `n`, most significant first. -/
def hexChars : Nat → Nat → List Char
  | 0, _ => []
  | k + 1, n => hexChars k (n / 16) ++ [hexChar (n % 16)]

/-- The identifier the store generates for the `n`-th created record: a
24-character hexadecimal string (the ObjectId wire format). -/
def genId (n : Nat) : String := String.mk (hexChars 24 n)

/-- A well-formed identifier: exactly 24 hexadecimal characters. An id that is
not well formed makes the mapper raise a cast error instead of querying. -/
def wellFormedId (s : String) : Bool :=
  s.length = 24 && s.data.all isHexChar

/-- The error shapes that handlers forward to the middleware chain:
mapper validation errors, mapper cast errors on malformed identifiers, and
`createHttpError` objects carrying an explicit status. -/
inductive Err where
  | validation (message : String)
  | cast (message : String)
  | http (status : Nat) (message : String)
deriving Repr, DecidableEq

/-- Modelled from the spec: `model.js` (the ProductsModel schema declaration)
is imported by the sources but missing from them. Spec §3/§4.1: `name` and
`description` are required non-empty text, `price` is a required non-negative
number. A full payload is valid when all three fields are present and valid. -/
def validPayload (p : Payload) : Bool :=
  (match p.name with | some s => s != "" | none => false) &&
  (match p.description with | some s => s != "" | none => false) &&
  (match p.price with | some v => decide (0 ≤ v) | none => false)

/-- Modelled from the spec: validation of a partial update payload under
`runValidators` applies the schema rules to the supplied (changed) fields
only; absent fields are not checked. -/
def validUpdate (p : Payload) : Bool :=
  (match p.name with | some s => s != "" | none => true) &&
  (match p.description with | some s => s != "" | none => true) &&
  (match p.price with | some v => decide (0 ≤ v) | none => true)

/-- Apply a partial update to a record: supplied fields replace the stored
values, absent fields retain their prior values. -/
def applyUpdate (u : Payload) (r : Product) : Product :=
  { name := u.name.getD r.name
    description := u.description.getD r.description
    price := u.price.getD r.price }

/-- The record persisted for a valid create payload (all fields present by
validity, so the defaults are never used). -/
def mkProduct (p : Payload) : Product :=
  { name := p.name.getD ""
    description := p.description.getD ""
    price := p.price.getD 0 }

/-- `new ProductsModel(req.body); await newProduct.save()`: validate the
payload against the schema; on success append a new row under a freshly
generated identifier and return that identifier. -/
def save (p : Payload) (db : DB) : Except Err (String × DB) :=
  if validPayload p then
    Except.ok (genId db.counter,
      ⟨db.rows ++ [(genId db.counter, mkProduct p)], db.counter + 1⟩)
  else Except.error (Err.validation "Product validation failed")

/-- `ProductsModel.find()`: every stored row, in store order. -/
def find (db : DB) : List (String × Product) := db.rows

/-- `ProductsModel.findById(id)`: cast error when the id is malformed,
otherwise the matching record or `null`. -/
def findById (id : String) (db : DB) : Except Err (Option Product) :=
  if wellFormedId id then Except.ok (lookupRow db.rows id)
  else Except.error (Err.cast ("Cast to ObjectId failed for value " ++ id))

/-- `ProductsModel.findByIdAndUpdate(id, update?, options)`: cast error on a
malformed id; with `runValidators` the supplied update document is validated
against the schema (changed fields only) before the query runs; then the
matching record, if any, has the update applied in place — an absent update
document modifies nothing and simply returns the matching record. The result
is the old record, or the new one when the `new` option (`returnNew`) is set. -/
def findByIdAndUpdate (id : String) (update : Option Payload)
    (returnNew runValidators : Bool) (db : DB) :
    Except Err (Option Product × DB) :=
  if wellFormedId id then
    match update with
    | none => Except.ok (lookupRow db.rows id, db)
    | some u =>
      if runValidators && !(validUpdate u) then
        Except.error (Err.validation "Validation failed")
      else
        match lookupRow db.rows id with
        | none => Except.ok (none, db)
        | some r =>
          let r2 := applyUpdate u r
          Except.ok (some (if returnNew then r2 else r),
            { db with rows := setRow db.rows id r2 })
  else Except.error (Err.cast ("Cast to ObjectId failed for value " ++ id))

/-- Response bodies the service produces. -/
inductive Body where
  | empty
  | idObj (id : String)
  | productObj (id : String) (p : Product)
  | productList (l : List (String × Product))
  | message (m : String)
deriving Repr, DecidableEq

/-- An HTTP response: status code and JSON body. -/
structure Response where
  status : Nat
  body : Body
deriving Repr, DecidableEq

/-- One observable step a handler takes: send a response, or forward an error
to the middleware chain via `next(error)`. -/
inductive Action where
  | respond (r : Response)
  | forward (e : Err)
deriving Repr, DecidableEq

/-- The interpolated not-found message built by the handlers. -/
def notFoundMessage (id : String) : String :=
  "Product with id " ++ id ++ " not found!"

/-- `productsRouter.post("/")`: save the body; 201 with the new id on
success, forward the error otherwise (the `catch` block). -/
def postHandler (body : Payload) (db : DB) : List Action × DB :=
  match save body db with
  | Except.ok (newId, db2) => ([Action.respond ⟨201, Body.idObj newId⟩], db2)
  | Except.error e => ([Action.forward e], db)

/-- `productsRouter.get("/")`: 200 with every stored product. -/
def getAllHandler (db : DB) : List Action × DB :=
  ([Action.respond ⟨200, Body.productList (find db)⟩], db)

/-- `productsRouter.get("/:id")`: 200 with the record when found; a 404
http-error forwarded when `findById` returns `null`; any thrown error
forwarded by the `catch` block. -/
def getByIdHandler (id : String) (db : DB) : List Action × DB :=
  match findById id db with
  | Except.ok (some p) => ([Action.respond ⟨200, Body.productObj id p⟩], db)
  | Except.ok none => ([Action.forward (Err.http 404 (notFoundMessage id))], db)
  | Except.error e => ([Action.forward e], db)

/-- `productsRouter.put("/:id")`: `findByIdAndUpdate(id, req.body,
{ new: true, runValidators: true })`; 200 with the updated record when found,
404 forwarded when not, thrown errors forwarded. -/
def putHandler (id : String) (body : Payload) (db : DB) : List Action × DB :=
  match findByIdAndUpdate id (some body) true true db with
  | Except.ok (some p, db2) => ([Action.respond ⟨200, Body.productObj id p⟩], db2)
  | Except.ok (none, db2) => ([Action.forward (Err.http 404 (notFoundMessage id))], db2)
  | Except.error e => ([Action.forward e], db)

/-- `productsRouter.delete("/:id")`: the source calls
`findByIdAndUpdate(req.params.id)` — with no update document and default
options — then answers 204 when a record was found and forwards a 404
http-error otherwise. -/
def deleteHandler (id : String) (db : DB) : List Action × DB :=
  match findByIdAndUpdate id none false false db with
  | Except.ok (some _, db2) => ([Action.respond ⟨204, Body.empty⟩], db2)
  | Except.ok (none, db2) => ([Action.forward (Err.http 404 (notFoundMessage id))], db2)
  | Except.error e => ([Action.forward e], db)

/-- Modelled from the spec: `errorHandlers.js` is imported by `server.js` but
missing from the sources. Stage 1: validation-shape errors become
`400 {message}`; anything else is passed on. -/
def badRequestHandler : Err → Option Response
  | Err.validation m => some ⟨400, Body.message m⟩
  | _ => none

/-- Modelled from the spec: stage 2 of `errorHandlers.js`: not-found signals
(status-404 http errors) and malformed-identifier (cast) errors become
`404 {message}`; anything else is passed on. -/
def notFoundHandler : Err → Option Response
  | Err.cast m => some ⟨404, Body.message m⟩
  | Err.http 404 m => some ⟨404, Body.message m⟩
  | _ => none

/-- Modelled from the spec: stage 3 of `errorHandlers.js`: the generic
catch-all, answering 500 with a generic body to whatever reaches it. -/
def genericErrorHandler : Err → Response :=
  fun _ => ⟨500, Body.message "Generic error"⟩

/-- `server.js` middleware order for a forwarded error: `badRequestHandler`,
then `notFoundHandler`, then `genericErrorHandler`; the first stage that
matches responds and ends the chain. -/
def runChain (e : Err) : Response :=
  match badRequestHandler e with
  | some r => r
  | none =>
    match notFoundHandler e with
    | some r => r
    | none => genericErrorHandler e

/-- The HTTP surface mounted at `/products`. -/
inductive Request where
  | post (body : Payload)
  | getAll
  | getById (id : String)
  | put (id : String) (body : Payload)
  | del (id : String)
deriving Repr, DecidableEq

/-- Dispatch a request to its route handler (`server.use("/products",
productsRouter)`). -/
def route : Request → DB → List Action × DB
  | Request.post b, db => postHandler b db
  | Request.getAll, db => getAllHandler db
  | Request.getById i, db => getByIdHandler i db
  | Request.put i b, db => putHandler i b db
  | Request.del i, db => deleteHandler i db

/-- End-to-end processing of one request: run the handler; a sent response is
returned as is, a forwarded error is translated by the error chain. -/
def handle (req : Request) (db : DB) : Response × DB :=
  match route req db with
  | ([Action.respond r], db2) => (r, db2)
  | ([Action.forward e], db2) => (runChain e, db2)
  | (_, db2) => (⟨500, Body.message "Generic error"⟩, db2)

/-- The concrete payload of the spec scenario and the test suite. -/
def iphonePayload : Payload :=
  { name := some "iPhone SE", description := some "Good phone", price := some 9001 }

/-- The empty store. -/
def db0 : DB := ⟨[], 0⟩

/-- The store after creating `iphonePayload` in the empty store. -/
def dbOne : DB := (handle (Request.post iphonePayload) db0).2

/-! ## Helper lemmas about the store primitives -/

theorem hexChars_length (k : Nat) : ∀ n, (hexChars k n).length = k := by
  induction k with
  | zero => intro n; rfl
  | succ k ih => intro n; simp [hexChars, ih]

theorem isHexChar_hexChar : ∀ m, m < 16 → isHexChar (hexChar m) = true := by
  decide

theorem hexChars_all_hex (k : Nat) :
    ∀ n c, c ∈ hexChars k n → isHexChar c = true := by
  induction k with
  | zero => intro n c hc; simp [hexChars] at hc
  | succ k ih =>
    intro n c hc
    simp only [hexChars, List.mem_append, List.mem_singleton] at hc
    rcases hc with hc | hc
    · exact ih _ _ hc
    · subst hc; exact isHexChar_hexChar _ (Nat.mod_lt _ (by norm_num))

theorem genId_length (n : Nat) : (genId n).length = 24 := by
  show (hexChars 24 n).length = 24
  exact hexChars_length 24 n

theorem genId_ne_empty (n : Nat) : genId n ≠ "" := by
  intro h
  have := genId_length n
  rw [h] at this
  simp at this

theorem wellFormedId_genId (n : Nat) : wellFormedId (genId n) = true := by
  simp only [wellFormedId, Bool.and_eq_true, decide_eq_true_eq]
  refine ⟨genId_length n, ?_⟩
  rw [List.all_eq_true]
  intro c hc
  exact hexChars_all_hex 24 n c hc

theorem lookupRow_append_none (rows : List (String × Product)) (id : String)
    (p : Product) (h : lookupRow rows id = none) :
    lookupRow (rows ++ [(id, p)]) id = some p := by
  induction rows with
  | nil => simp [lookupRow]
  | cons hd tl ih =>
    obtain ⟨k, v⟩ := hd
    by_cases hk : k = id
    · simp [lookupRow, hk] at h
    · simp [lookupRow, hk] at h ⊢
      exact ih h

theorem lookupRow_setRow (rows : List (String × Product)) (id : String)
    (p : Product) (h : (lookupRow rows id).isSome = true) :
    lookupRow (setRow rows id p) id = some p := by
  induction rows with
  | nil => simp [lookupRow] at h
  | cons hd tl ih =>
    obtain ⟨k, v⟩ := hd
    by_cases hk : k = id
    · simp [lookupRow, setRow, hk]
    · simp [lookupRow, setRow, hk] at h ⊢
      exact ih h

/-! ## Characterization of each endpoint end to end, one lemma per branch -/

theorem handle_post_valid (p : Payload) (db : DB) (hv : validPayload p = true) :
    handle (Request.post p) db =
      (⟨201, Body.idObj (genId db.counter)⟩,
        ⟨db.rows ++ [(genId db.counter, mkProduct p)], db.counter + 1⟩) := by
  simp [handle, route, postHandler, save, hv]

theorem handle_post_invalid (p : Payload) (db : DB)
    (hv : validPayload p = false) :
    handle (Request.post p) db =
      (⟨400, Body.message "Product validation failed"⟩, db) := by
  simp [handle, route, postHandler, save, hv, runChain, badRequestHandler]

theorem handle_getById_found (id : String) (db : DB) (r : Product)
    (hwf : wellFormedId id = true) (hl : lookupRow db.rows id = some r) :
    handle (Request.getById id) db = (⟨200, Body.productObj id r⟩, db) := by
  simp [handle, route, getByIdHandler, findById, hwf, hl]

theorem handle_getById_missing (id : String) (db : DB)
    (hwf : wellFormedId id = true) (hl : lookupRow db.rows id = none) :
    handle (Request.getById id) db =
      (⟨404, Body.message (notFoundMessage id)⟩, db) := by
  simp [handle, route, getByIdHandler, findById, hwf, hl, runChain,
    badRequestHandler, notFoundHandler]

theorem handle_getById_malformed (id : String) (db : DB)
    (hwf : wellFormedId id = false) :
    handle (Request.getById id) db =
      (⟨404, Body.message ("Cast to ObjectId failed for value " ++ id)⟩, db) := by
  simp [handle, route, getByIdHandler, findById, hwf, runChain,
    badRequestHandler, notFoundHandler]

theorem handle_put_found (id : String) (u : Payload) (db : DB) (r : Product)
    (hwf : wellFormedId id = true) (hu : validUpdate u = true)
    (hl : lookupRow db.rows id = some r) :
    handle (Request.put id u) db =
      (⟨200, Body.productObj id (applyUpdate u r)⟩,
        { db with rows := setRow db.rows id (applyUpdate u r) }) := by
  simp [handle, route, putHandler, findByIdAndUpdate, hwf, hu, hl]

theorem handle_put_missing (id : String) (u : Payload) (db : DB)
    (hwf : wellFormedId id = true) (hu : validUpdate u = true)
    (hl : lookupRow db.rows id = none) :
    handle (Request.put id u) db =
      (⟨404, Body.message (notFoundMessage id)⟩, db) := by
  simp [handle, route, putHandler, findByIdAndUpdate, hwf, hu, hl, runChain,
    badRequestHandler, notFoundHandler]

theorem handle_put_invalid (id : String) (u : Payload) (db : DB)
    (hwf : wellFormedId id = true) (hu : validUpdate u = false) :
    handle (Request.put id u) db =
      (⟨400, Body.message "Validation failed"⟩, db) := by
  simp [handle, route, putHandler, findByIdAndUpdate, hwf, hu, runChain,
    badRequestHandler]

theorem handle_del_found (id : String) (db : DB) (r : Product)
    (hwf : wellFormedId id = true) (hl : lookupRow db.rows id = some r) :
    handle (Request.del id) db = (⟨204, Body.empty⟩, db) := by
  simp [handle, route, deleteHandler, findByIdAndUpdate, hwf, hl]

theorem handle_del_missing (id : String) (db : DB)
    (hwf : wellFormedId id = true) (hl : lookupRow db.rows id = none) :
    handle (Request.del id) db =
      (⟨404, Body.message (notFoundMessage id)⟩, db) := by
  simp [handle, route, deleteHandler, findByIdAndUpdate, hwf, hl, runChain,
    badRequestHandler, notFoundHandler]

theorem handle_del_malformed (id : String) (db : DB)
    (hwf : wellFormedId id = false) :
    handle (Request.del id) db =
      (⟨404, Body.message ("Cast to ObjectId failed for value " ++ id)⟩, db) := by
  simp [handle, route, deleteHandler, findByIdAndUpdate, hwf, runChain,
    badRequestHandler, notFoundHandler]

/-! ## Claim theorems -/

/-- C1, counterexample: in the spec's own concrete scenario (create the
iPhone SE product, then DELETE it), the DELETE answers 204 but the following
GET /products/id answers 200 with the record, not the 404 the claim requires:
the delete handler calls `findByIdAndUpdate` with no update document, which
removes nothing. -/
theorem delete_then_get_still_200_scenario :
    (handle (Request.del (genId 0)) dbOne).1.status = 204 ∧
    (handle (Request.getById (genId 0))
        (handle (Request.del (genId 0)) dbOne).2).1.status = 200 ∧
    (handle (Request.getById (genId 0))
        (handle (Request.del (genId 0)) dbOne).2).1.status ≠ 404 := by
  decide

/-- C1 (amended): for every product created via POST /products (201 with a
freshly generated id), a subsequent DELETE /products/id returns 204, but the
record is NOT removed: the store is left unchanged by the delete and a
subsequent GET /products/id still returns 200 with the product (no hard
delete occurs). -/
theorem delete_returns_204_but_record_remains (db : DB) (p : Payload)
    (hv : validPayload p = true)
    (hfresh : lookupRow db.rows (genId db.counter) = none) :
    (handle (Request.post p) db).1.status = 201 ∧
    (handle (Request.del (genId db.counter))
        (handle (Request.post p) db).2).1.status = 204 ∧
    (handle (Request.del (genId db.counter))
        (handle (Request.post p) db).2).2 = (handle (Request.post p) db).2 ∧
    (handle (Request.getById (genId db.counter))
        (handle (Request.del (genId db.counter))
          (handle (Request.post p) db).2).2).1 =
      ⟨200, Body.productObj (genId db.counter) (mkProduct p)⟩ := by
  have hpost := handle_post_valid p db hv
  have hrow : lookupRow (handle (Request.post p) db).2.rows (genId db.counter) =
      some (mkProduct p) := by
    rw [hpost]
    exact lookupRow_append_none db.rows (genId db.counter) (mkProduct p) hfresh
  have hdel := handle_del_found (genId db.counter) (handle (Request.post p) db).2
    (mkProduct p) (wellFormedId_genId db.counter) hrow
  have hget := handle_getById_found (genId db.counter) (handle (Request.post p) db).2
    (mkProduct p) (wellFormedId_genId db.counter) hrow
  exact ⟨by rw [hpost], by rw [hdel], by rw [hdel],
    by rw [hdel]; exact congrArg Prod.fst hget⟩

/-- C1 witness: the amended statement holds at the concrete scenario input
(empty store, the iPhone SE payload). -/
theorem delete_returns_204_but_record_remains_witness :
    (handle (Request.post iphonePayload) db0).1.status = 201 ∧
    (handle (Request.del (genId 0))
        (handle (Request.post iphonePayload) db0).2).1.status = 204 ∧
    (handle (Request.del (genId 0))
        (handle (Request.post iphonePayload) db0).2).2 =
      (handle (Request.post iphonePayload) db0).2 ∧
    (handle (Request.getById (genId 0))
        (handle (Request.del (genId 0))
          (handle (Request.post iphonePayload) db0).2).2).1 =
      ⟨200, Body.productObj (genId 0) (mkProduct iphonePayload)⟩ :=
  delete_returns_204_but_record_remains db0 iphonePayload (by decide) (by decide)

/-- C2, counterexample: on a store holding one product, the first DELETE
answers 204 and the second DELETE on the same id answers 204 again, not the
404 the claim requires: the record was never removed. -/
theorem second_delete_still_204_scenario :
    (handle (Request.del (genId 0)) dbOne).1.status = 204 ∧
    (handle (Request.del (genId 0))
        (handle (Request.del (genId 0)) dbOne).2).1.status = 204 ∧
    (handle (Request.del (genId 0))
        (handle (Request.del (genId 0)) dbOne).2).1.status ≠ 404 := by
  decide

/-- C2 (amended): once DELETE /products/id has succeeded with 204, every
subsequent DELETE on that same id returns 204 again (never 404): the delete
leaves the store unchanged, so repetition keeps succeeding. -/
theorem delete_idempotently_204 (db : DB) (id : String)
    (h : (handle (Request.del id) db).1.status = 204) :
    (handle (Request.del id) (handle (Request.del id) db).2).1.status = 204 := by
  by_cases hwf : wellFormedId id = true
  · cases hl : lookupRow db.rows id with
    | none => rw [handle_del_missing id db hwf hl] at h; simp at h
    | some r =>
      have hdel := handle_del_found id db r hwf hl
      rw [hdel]
      exact congrArg (fun z => z.1.status) hdel
  · rw [handle_del_malformed id db (by simpa using hwf)] at h; simp at h

/-- C2 witness: applies the amended theorem at the concrete one-product
store. -/
theorem delete_idempotently_204_witness :
    (handle (Request.del (genId 0))
        (handle (Request.del (genId 0)) dbOne).2).1.status = 204 :=
  delete_idempotently_204 dbOne (genId 0) (by decide)

/-- C3: for every valid payload (name and description non-empty, price
non-negative, the modelled schema), POST /products answers 201 with a body
carrying exactly the identifier the store newly generated, and that
identifier is non-empty. -/
theorem post_valid_creates_201_with_id (db : DB) (p : Payload)
    (hv : validPayload p = true) :
    (handle (Request.post p) db).1 = ⟨201, Body.idObj (genId db.counter)⟩ ∧
    genId db.counter ≠ "" := by
  exact ⟨by rw [handle_post_valid p db hv], genId_ne_empty db.counter⟩

/-- C3 witness: the statement at the empty store and the iPhone SE payload. -/
theorem post_valid_creates_201_with_id_witness :
    (handle (Request.post iphonePayload) db0).1 = ⟨201, Body.idObj (genId 0)⟩ ∧
    genId 0 ≠ "" :=
  post_valid_creates_201_with_id db0 iphonePayload (by decide)

/-- C4: for every existing product, PUT /products/id with the partial body
containing only name "Kelek" answers 200 with name "Kelek" while description
and price keep their prior values, both in the response body and in the
record now stored under that id. -/
theorem put_partial_name_updates_only_name (db : DB) (id : String) (r : Product)
    (hwf : wellFormedId id = true) (hrow : lookupRow db.rows id = some r) :
    (handle (Request.put id ⟨some "Kelek", none, none⟩) db).1 =
      ⟨200, Body.productObj id ⟨"Kelek", r.description, r.price⟩⟩ ∧
    lookupRow (handle (Request.put id ⟨some "Kelek", none, none⟩) db).2.rows id =
      some ⟨"Kelek", r.description, r.price⟩ := by
  have hput := handle_put_found id ⟨some "Kelek", none, none⟩ db r hwf (by decide) hrow
  have happ : applyUpdate ⟨some "Kelek", none, none⟩ r =
      ⟨"Kelek", r.description, r.price⟩ := rfl
  rw [happ] at hput
  refine ⟨by rw [hput], ?_⟩
  rw [hput]
  exact lookupRow_setRow db.rows id _ (by rw [hrow]; rfl)

/-- C4 witness: applies the theorem at the one-product store. -/
theorem put_partial_name_updates_only_name_witness :
    (handle (Request.put (genId 0) ⟨some "Kelek", none, none⟩) dbOne).1 =
      ⟨200, Body.productObj (genId 0) ⟨"Kelek", "Good phone", 9001⟩⟩ ∧
    lookupRow (handle (Request.put (genId 0) ⟨some "Kelek", none, none⟩)
        dbOne).2.rows (genId 0) =
      some ⟨"Kelek", "Good phone", 9001⟩ :=
  put_partial_name_updates_only_name dbOne (genId 0)
    ⟨"iPhone SE", "Good phone", 9001⟩ (by decide) (by decide)

/-- C5: a POST whose payload violates the schema answers 400 and creates no
record (the store is unchanged), and a PUT on an existing record whose
changed fields violate the schema answers 400 and leaves the store (hence
the record) unchanged. -/
theorem invalid_write_rejected_400_no_store_change (db : DB) (p u : Payload)
    (id : String) (r : Product)
    (hp : validPayload p = false)
    (hwf : wellFormedId id = true) (_hrow : lookupRow db.rows id = some r)
    (hu : validUpdate u = false) :
    (handle (Request.post p) db).1.status = 400 ∧
    (handle (Request.post p) db).2 = db ∧
    (handle (Request.put id u) db).1.status = 400 ∧
    (handle (Request.put id u) db).2 = db := by
  have hpost := handle_post_invalid p db hp
  have hput := handle_put_invalid id u db hwf hu
  exact ⟨by rw [hpost], by rw [hpost], by rw [hput], by rw [hput]⟩

/-- C5 witness: the payload missing name from the test suite, and an update
setting name to the empty string, both on the one-product store. -/
theorem invalid_write_rejected_400_no_store_change_witness :
    (handle (Request.post ⟨none, some "Good phone", some 10000⟩) dbOne).1.status = 400 ∧
    (handle (Request.post ⟨none, some "Good phone", some 10000⟩) dbOne).2 = dbOne ∧
    (handle (Request.put (genId 0) ⟨some "", none, none⟩) dbOne).1.status = 400 ∧
    (handle (Request.put (genId 0) ⟨some "", none, none⟩) dbOne).2 = dbOne :=
  invalid_write_rejected_400_no_store_change dbOne
    ⟨none, some "Good phone", some 10000⟩ ⟨some "", none, none⟩ (genId 0)
    ⟨"iPhone SE", "Good phone", 9001⟩ (by decide) (by decide) (by decide) (by decide)

/-- C6: for every well-formed identifier holding no record (never assigned),
GET, PUT (with a schema-valid partial body) and DELETE on /products/id all
answer 404 with the body message "Product with id {id} not found!" carrying
the requested id. -/
theorem unknown_id_404_with_message (db : DB) (id : String) (u : Payload)
    (hwf : wellFormedId id = true) (hnone : lookupRow db.rows id = none)
    (hu : validUpdate u = true) :
    (handle (Request.getById id) db).1 = ⟨404, Body.message (notFoundMessage id)⟩ ∧
    (handle (Request.put id u) db).1 = ⟨404, Body.message (notFoundMessage id)⟩ ∧
    (handle (Request.del id) db).1 = ⟨404, Body.message (notFoundMessage id)⟩ := by
  exact ⟨by rw [handle_getById_missing id db hwf hnone],
    by rw [handle_put_missing id u db hwf hu hnone],
    by rw [handle_del_missing id db hwf hnone]⟩

/-- C6 witness: the never-assigned identifier from the spec and test suite,
on the empty store, with the Kelek update body. -/
theorem unknown_id_404_with_message_witness :
    (handle (Request.getById "6436b60c28268a437baf0b7e") db0).1 =
      ⟨404, Body.message (notFoundMessage "6436b60c28268a437baf0b7e")⟩ ∧
    (handle (Request.put "6436b60c28268a437baf0b7e" ⟨some "Kelek", none, none⟩)
        db0).1 =
      ⟨404, Body.message (notFoundMessage "6436b60c28268a437baf0b7e")⟩ ∧
    (handle (Request.del "6436b60c28268a437baf0b7e") db0).1 =
      ⟨404, Body.message (notFoundMessage "6436b60c28268a437baf0b7e")⟩ :=
  unknown_id_404_with_message db0 "6436b60c28268a437baf0b7e"
    ⟨some "Kelek", none, none⟩ (by decide) (by decide) (by decide)

/-- C7: for every malformed identifier, GET /products/id answers 404 — the
mapper's cast error is forwarded and translated to not-found downstream —
and in particular never 400. -/
theorem malformed_id_404_not_400 (db : DB) (id : String)
    (h : wellFormedId id = false) :
    (handle (Request.getById id) db).1.status = 404 ∧
    (handle (Request.getById id) db).1.status ≠ 400 := by
  have hget := handle_getById_malformed id db h
  rw [hget]
  exact ⟨rfl, by norm_num⟩

/-- C7 witness: the malformed identifier "abc" on the empty store. -/
theorem malformed_id_404_not_400_witness :
    (handle (Request.getById "abc") db0).1.status = 404 ∧
    (handle (Request.getById "abc") db0).1.status ≠ 400 :=
  malformed_id_404_not_400 db0 "abc" (by decide)

/-- C8: the error chain consults the stages in the fixed order
badRequestHandler (400), notFoundHandler (404), genericErrorHandler (500):
a match at stage one responds and ends the chain, stage two responds only
when stage one passed, the generic stage responds only when both passed,
and the generic 500 never answers an error matched by an earlier stage. -/
theorem error_chain_first_match_responds (e : Err) :
    (∀ r, badRequestHandler e = some r → runChain e = r) ∧
    (badRequestHandler e = none →
      ∀ r, notFoundHandler e = some r → runChain e = r) ∧
    (badRequestHandler e = none → notFoundHandler e = none →
      runChain e = genericErrorHandler e) ∧
    ((badRequestHandler e).isSome = true ∨ (notFoundHandler e).isSome = true →
      (runChain e).status ≠ 500) := by
  cases e with
  | validation m =>
    refine ⟨?_, ?_, ?_, ?_⟩ <;>
      simp [runChain, badRequestHandler, notFoundHandler, genericErrorHandler]
  | cast m =>
    refine ⟨?_, ?_, ?_, ?_⟩ <;>
      simp [runChain, badRequestHandler, notFoundHandler, genericErrorHandler]
  | http s m =>
    by_cases hs : s = 404
    · subst hs
      refine ⟨?_, ?_, ?_, ?_⟩ <;>
        simp [runChain, badRequestHandler, notFoundHandler, genericErrorHandler]
    · refine ⟨?_, ?_, ?_, ?_⟩ <;>
        simp [runChain, badRequestHandler, notFoundHandler,
          genericErrorHandler, hs]

/-- C8 witness: a validation-shape error is answered by the first stage with
its 400 response. -/
theorem error_chain_first_match_responds_witness :
    runChain (Err.validation "boom") = ⟨400, Body.message "boom"⟩ :=
  (error_chain_first_match_responds (Err.validation "boom")).1
    ⟨400, Body.message "boom"⟩ rfl

/-- C9: whenever DELETE /products/id answers 204, the store afterwards is
exactly the store before — the handler's `findByIdAndUpdate` call with no
update document modifies and removes nothing — and the record is still
present under that id. -/
theorem delete204_store_unchanged (db : DB) (id : String)
    (h : (handle (Request.del id) db).1.status = 204) :
    (handle (Request.del id) db).2 = db ∧
    (lookupRow db.rows id).isSome = true := by
  by_cases hwf : wellFormedId id = true
  · cases hl : lookupRow db.rows id with
    | none => rw [handle_del_missing id db hwf hl] at h; simp at h
    | some r =>
      exact ⟨by rw [handle_del_found id db r hwf hl], by simp [hl]⟩
  · rw [handle_del_malformed id db (by simpa using hwf)] at h; simp at h

/-- C9 witness: applies the theorem at the one-product store. -/
theorem delete204_store_unchanged_witness :
    (handle (Request.del (genId 0)) dbOne).2 = dbOne ∧
    (lookupRow dbOne.rows (genId 0)).isSome = true :=
  delete204_store_unchanged dbOne (genId 0) (by decide)

/-- C10: every route handler, on every request and store, produces exactly
one outcome: its action list always has exactly one element, which is either
a single sent response or a single error forwarded to the middleware chain —
never both and never neither. -/
theorem handler_exactly_one_outcome (req : Request) (db : DB) :
    ((route req db).1).length = 1 := by
  cases req with
  | post b =>
    simp only [route, postHandler]
    cases save b db <;> simp
  | getAll => rfl
  | getById i =>
    simp only [route, getByIdHandler]
    rcases findById i db with e | (_ | p) <;> simp
  | put i b =>
    simp only [route, putHandler]
    rcases findByIdAndUpdate i (some b) true true db with e | ⟨_ | p, db2⟩ <;> simp
  | del i =>
    simp only [route, deleteHandler]
    rcases findByIdAndUpdate i none false false db with e | ⟨_ | p, db2⟩ <;> simp

end ProductsService
